import Mathlib

/-!
Verification of the Haru Blog Tool (src/app.py).

A shallow embedding in Lean 4 of the four data-processing functions of
`src/app.py` — `verify_firebase_token`, `fetch_wp_posts`, `write_to_sheets`
and `generate_sns_schedule` — together with theorems settling the testable
properties of the specification.

External effects (HTTP responses, the spreadsheet service, the
generative-text API, the JWT decoding library, the current date) are
modelled as explicit arguments: a page-indexed response function for the
WordPress API, an oracle for the chat-completion call, an environment
record of success/failure flags for the spreadsheet calls, and an ordinal
day number for `datetime.today()`.  Exceptions are modelled with `Option`.
-/

namespace HaruBlogTool

/-- A post row as consumed by `generate_sns_schedule`: the two columns the
function reads from the DataFrame (`p.タイトル` and `p.URL`). -/
structure Post where
  title : String
  url : String
deriving DecidableEq, Repr

/-- One row of the generated SNS schedule: the dict appended to `records`
in `generate_sns_schedule` (`datetime`, `title`, `url`, `text`). -/
structure Entry where
  datetime : String
  title : String
  url : String
  text : String
deriving DecidableEq, Repr

/-- The fixed list `time_slots = ["09:00", "12:00", "20:00"]` of
`generate_sns_schedule`. -/
def time_slots : List String := ["09:00", "12:00", "20:00"]

/-- Python string whitespace: the exact set of code points for which
`str.isspace()` holds, which is what `str.strip()` removes — U+0009–U+000D,
U+001C–U+0020, U+0085, U+00A0, U+1680, U+2000–U+200A, U+2028–U+2029,
U+202F, U+205F and U+3000 (the ideographic space). -/
def isPySpace (c : Char) : Bool :=
  (0x09 ≤ c.toNat && c.toNat ≤ 0x0d) ||
  (0x1c ≤ c.toNat && c.toNat ≤ 0x20) ||
  c.toNat = 0x85 || c.toNat = 0xa0 || c.toNat = 0x1680 ||
  (0x2000 ≤ c.toNat && c.toNat ≤ 0x200a) ||
  c.toNat = 0x2028 || c.toNat = 0x2029 ||
  c.toNat = 0x202f || c.toNat = 0x205f || c.toNat = 0x3000

/-- Python `s.strip()`: drop leading and trailing whitespace characters. -/
def pyStrip (l : List Char) : List Char :=
  ((l.dropWhile isPySpace).reverse.dropWhile isPySpace).reverse

/-- Python `s.strip()` on strings. -/
def pyStripStr (s : String) : String :=
  String.mk (pyStrip s.data)

/-- The `n`-th value produced by `itertools.cycle(posts)`: `next` raises
`StopIteration` on an empty iterable (modelled `none`); otherwise the
cycle yields element `n % len(posts)`. -/
def cycleGet (posts : List Post) (n : Nat) : Option Post :=
  posts.get? (n % posts.length)

/-- The tone sentence chosen inside the loop of `generate_sns_schedule`:
`"丁寧で落ち着いたトーン" if tone == "丁寧" else "カジュアルで親しみやすいトーン"`. -/
def toneText (tone : String) : String :=
  if tone = "丁寧" then "丁寧で落ち着いたトーン" else "カジュアルで親しみやすいトーン"

/-- The prompt f-string built for the chat-completion call. -/
def promptFor (tone : String) (p : Post) : String :=
  "\n記事タイトル: " ++ p.title ++ "\nURL: " ++ p.url ++ "\nトーン: " ++
    toneText tone ++ "\n自然な紹介文＋3つのハッシュタグ\n"

/-- The caption text for one schedule entry.  With a client (non-empty
`api_key`, Python truthiness of the key string) the chat-completion call is
made through the oracle: on success the stripped completion is used, on any
exception the fallback `"[AI生成エラー] " + title`.  Without a client the
text is `f"{p.タイトル}\n{p.URL}"`. -/
def entryText (tone : String) (apiKey : String)
    (oracle : Nat → String → Except Unit String) (i : Nat) (p : Post) : String :=
  if apiKey ≠ "" then
    match oracle i (promptFor tone p) with
    | Except.ok s => pyStripStr s
    | Except.error _ => "[AI生成エラー] " ++ p.title
  else
    p.title ++ "\n" ++ p.url

/-- The `(day, time-slot)` pairs visited by the two nested loops of
`generate_sns_schedule`, in execution order (day-major, then slot). -/
def schedulePairs (days : Nat) : List (Nat × String) :=
  (List.range days).flatMap (fun d => time_slots.map (fun t => (d, t)))

/-- The loop body run over the remaining `(day, slot)` pairs, `i` being the
number of `next(post_iter)` calls already made.  A failing `next` (empty
cycle) propagates as `none`. -/
def genLoop (posts : List Post) (today : Nat) (tone : String) (apiKey : String)
    (oracle : Nat → String → Except Unit String) :
    List (Nat × String) → Nat → Option (List Entry)
  | [], _ => some []
  | (d, t) :: rest, i =>
    match cycleGet posts i with
    | none => none
    | some p =>
      match genLoop posts today tone apiKey oracle rest (i + 1) with
      | none => none
      | some es =>
        some ({ datetime := toString (today + d) ++ " " ++ t,
                title := p.title, url := p.url,
                text := entryText tone apiKey oracle i p } :: es)

/-- The function `generate_sns_schedule(df, days, tone, api_key)`: one entry per day per
time slot, posts assigned from `itertools.cycle` over the collection in
fetched order.  `today` stands for `datetime.today().date()` as an ordinal
day; `oracle` stands for the OpenAI chat-completion endpoint.  `none`
models the uncaught `StopIteration` of `next` on an empty collection. -/
def generate_sns_schedule (posts : List Post) (days : Nat) (tone : String)
    (apiKey : String) (oracle : Nat → String → Except Unit String)
    (today : Nat) : Option (List Entry) :=
  genLoop posts today tone apiKey oracle (schedulePairs days) 0

theorem schedulePairs_length (days : Nat) :
    (schedulePairs days).length = days * 3 := by
  simp [schedulePairs, time_slots, List.length_flatMap]
  induction days with
  | zero => simp
  | succ n ih =>
    simp [List.range_succ, ih]
    ring

theorem cycleGet_ne_nil {posts : List Post} (h : posts ≠ []) (n : Nat) :
    ∃ p, cycleGet posts n = some p := by
  have hlen : 0 < posts.length := List.length_pos.mpr h
  have : n % posts.length < posts.length := Nat.mod_lt _ hlen
  exact ⟨posts.get ⟨n % posts.length, this⟩, List.get?_eq_get this⟩

theorem genLoop_ne_nil {posts : List Post} (h : posts ≠ []) (today : Nat)
    (tone apiKey : String) (oracle : Nat → String → Except Unit String) :
    ∀ pairs i, ∃ es, genLoop posts today tone apiKey oracle pairs i = some es ∧
      es.length = pairs.length := by
  intro pairs
  induction pairs with
  | nil => intro i; exact ⟨[], rfl, rfl⟩
  | cons pr rest ih =>
    intro i
    obtain ⟨p, hp⟩ := cycleGet_ne_nil h i
    obtain ⟨es, hes, hlen⟩ := ih (i + 1)
    obtain ⟨d, t⟩ := pr
    refine ⟨Entry.mk (toString (today + d) ++ " " ++ t) p.title p.url
        (entryText tone apiKey oracle i p) :: es, ?_, ?_⟩
    · simp [genLoop, hp, hes]
    · simp [hlen]

theorem genLoop_get {posts : List Post} (today : Nat) (tone apiKey : String)
    (oracle : Nat → String → Except Unit String) :
    ∀ pairs i es, genLoop posts today tone apiKey oracle pairs i = some es →
    ∀ j e, es.get? j = some e →
    ∃ p, cycleGet posts (i + j) = some p ∧ e.title = p.title ∧ e.url = p.url ∧
      e.text = entryText tone apiKey oracle (i + j) p := by
  intro pairs
  induction pairs with
  | nil =>
    intro i es hes j e hj
    simp only [genLoop, Option.some.injEq] at hes
    subst hes
    simp at hj
  | cons pr rest ih =>
    intro i es hes j e hj
    obtain ⟨d, t⟩ := pr
    cases hcg : cycleGet posts i with
    | none =>
      simp only [genLoop, hcg] at hes
      exact Option.noConfusion hes
    | some p =>
      cases hrec : genLoop posts today tone apiKey oracle rest (i + 1) with
      | none =>
        simp only [genLoop, hcg, hrec] at hes
        exact Option.noConfusion hes
      | some es' =>
        simp only [genLoop, hcg, hrec, Option.some.injEq] at hes
        subst hes
        cases j with
        | zero =>
          simp only [List.get?] at hj
          cases hj
          exact ⟨p, by simpa using hcg, rfl, rfl, by simp⟩
        | succ k =>
          simp only [List.get?] at hj
          obtain ⟨q, hq, h1, h2, h3⟩ := ih (i + 1) es' hrec k e hj
          have hik : i + 1 + k = i + (k + 1) := by omega
          rw [hik] at hq h3
          exact ⟨q, hq, h1, h2, h3⟩

/-- With a falsy (empty) `api_key` no client is created, so `entryText`
ignores the oracle. -/
theorem genLoop_oracle_indep (posts : List Post) (today : Nat) (tone : String)
    (oracle oracle' : Nat → String → Except Unit String) :
    ∀ pairs i, genLoop posts today tone "" oracle pairs i =
      genLoop posts today tone "" oracle' pairs i := by
  intro pairs
  induction pairs with
  | nil => intro i; rfl
  | cons pr rest ih =>
    intro i
    obtain ⟨d, t⟩ := pr
    cases hcg : cycleGet posts i with
    | none => simp only [genLoop, hcg]
    | some p => simp only [genLoop, hcg, ih (i + 1), entryText]; simp

/-- A concrete oracle standing for an unreachable / failing chat API. -/
def oracleFail : Nat → String → Except Unit String := fun _ _ => Except.error ()

/-- C1 counterexample: with the empty post collection and `days = 1` the
function raises (`none`) instead of returning a 3-row schedule. -/
theorem sns_rowcount_cex :
    generate_sns_schedule [] 1 "丁寧" "" oracleFail 0 = none := by rfl

/-- C1 (amended: non-empty post collection): for every non-empty post
collection and every `days ≥ 1`, `generate_sns_schedule` returns a schedule
with exactly `days * 3` rows. -/
theorem sns_rowcount (posts : List Post) (h : posts ≠ []) (days : Nat)
    (hd : 1 ≤ days) (tone apiKey : String)
    (oracle : Nat → String → Except Unit String) (today : Nat) :
    ∃ s, generate_sns_schedule posts days tone apiKey oracle today = some s ∧
      s.length = days * 3 := by
  obtain ⟨es, hes, hlen⟩ :=
    genLoop_ne_nil h today tone apiKey oracle (schedulePairs days) 0
  exact ⟨es, hes, by rw [hlen, schedulePairs_length]⟩

theorem sns_rowcount_witness :
    ∃ s, generate_sns_schedule [Post.mk "A" "http://u"] 2 "丁寧" "" oracleFail 0 =
      some s ∧ s.length = 2 * 3 :=
  sns_rowcount [Post.mk "A" "http://u"] (by simp) 2 (by decide) "丁寧" ""
    oracleFail 0

/-- C2: for a non-empty collection the schedule is defined, and entry `i`
(0-indexed, day-major then slot order) carries the title and URL of post
`i % postCount` of the collection in fetched order; the result is a pure
function of its arguments, hence deterministic. -/
theorem sns_cycle_assignment (posts : List Post) (h : posts ≠ []) (days : Nat)
    (tone apiKey : String) (oracle : Nat → String → Except Unit String)
    (today : Nat) :
    ∃ s, generate_sns_schedule posts days tone apiKey oracle today = some s ∧
      ∀ i e, s.get? i = some e →
        ∃ p, posts.get? (i % posts.length) = some p ∧
          e.title = p.title ∧ e.url = p.url := by
  obtain ⟨es, hes, _⟩ :=
    genLoop_ne_nil h today tone apiKey oracle (schedulePairs days) 0
  refine ⟨es, hes, fun i e hie => ?_⟩
  obtain ⟨p, hp, h1, h2, _⟩ := genLoop_get today tone apiKey oracle _ 0 es hes i e hie
  exact ⟨p, by simpa [cycleGet] using hp, h1, h2⟩

theorem sns_cycle_assignment_witness :
    ∃ s, generate_sns_schedule [Post.mk "A" "http://u", Post.mk "B" "http://v"]
        1 "カジュアル" "" oracleFail 0 = some s ∧
      ∀ i e, s.get? i = some e →
        ∃ p, [Post.mk "A" "http://u", Post.mk "B" "http://v"].get?
            (i % [Post.mk "A" "http://u", Post.mk "B" "http://v"].length) = some p ∧
          e.title = p.title ∧ e.url = p.url :=
  sns_cycle_assignment [Post.mk "A" "http://u", Post.mk "B" "http://v"]
    (by simp) 1 "カジュアル" "" oracleFail 0

/-- C4: for an empty post collection and `days ≥ 1`, the very first
`next` on the wrap-around cycle fails, so `generate_sns_schedule` never
returns a schedule (modelled as `none`). -/
theorem sns_empty_raises (days : Nat) (hd : 1 ≤ days) (tone apiKey : String)
    (oracle : Nat → String → Except Unit String) (today : Nat) :
    generate_sns_schedule [] days tone apiKey oracle today = none := by
  unfold generate_sns_schedule
  cases hp : schedulePairs days with
  | nil =>
    have := schedulePairs_length days
    rw [hp] at this
    simp at this
    omega
  | cons pr rest =>
    obtain ⟨d, t⟩ := pr
    simp only [genLoop, cycleGet, List.get?]

theorem sns_empty_raises_witness :
    generate_sns_schedule [] 1 "丁寧" "key" oracleFail 0 = none :=
  sns_empty_raises 1 (by decide) "丁寧" "key" oracleFail 0

/-- C7: with no API key supplied (empty, hence falsy, key string) the
schedule exists for a non-empty collection, every entry text equals
`title + "\n" + url`, and the result does not depend on the chat oracle at
all (no API call is made). -/
theorem sns_no_key_text (posts : List Post) (h : posts ≠ []) (days : Nat)
    (tone : String) (oracle oracle' : Nat → String → Except Unit String)
    (today : Nat) :
    generate_sns_schedule posts days tone "" oracle today =
      generate_sns_schedule posts days tone "" oracle' today ∧
    ∃ s, generate_sns_schedule posts days tone "" oracle today = some s ∧
      ∀ i e, s.get? i = some e → e.text = e.title ++ "\n" ++ e.url := by
  constructor
  · exact genLoop_oracle_indep posts today tone oracle oracle' (schedulePairs days) 0
  · obtain ⟨es, hes, _⟩ :=
      genLoop_ne_nil h today tone "" oracle (schedulePairs days) 0
    refine ⟨es, hes, fun i e hie => ?_⟩
    obtain ⟨p, _, h1, h2, h3⟩ := genLoop_get today tone "" oracle _ 0 es hes i e hie
    rw [h3, h1, h2, entryText]
    simp

theorem sns_no_key_text_witness :
    (generate_sns_schedule [Post.mk "A" "http://u"] 1 "丁寧" "" oracleFail 0 =
      generate_sns_schedule [Post.mk "A" "http://u"] 1 "丁寧" ""
        (fun _ _ => Except.ok "caption") 0) ∧
    ∃ s, generate_sns_schedule [Post.mk "A" "http://u"] 1 "丁寧" "" oracleFail 0 =
      some s ∧ ∀ i e, s.get? i = some e → e.text = e.title ++ "\n" ++ e.url :=
  sns_no_key_text [Post.mk "A" "http://u"] (by simp) 1 "丁寧" oracleFail
    (fun _ _ => Except.ok "caption") 0

/-! The WordPress fetch stage (`fetch_wp_posts`). -/

/-- One raw post of the WordPress JSON, restricted to the fields the code
reads (after the `.get(..., default)` defaults are applied). -/
structure WpPost where
  id : Int
  titleRendered : String
  slug : String
  link : String
  status : String
  date : String
  modified : String
  contentRendered : String
deriving DecidableEq, Repr

/-- One HTTP response of the posts endpoint: status code, decoded JSON body
(a list of posts) and the `X-WP-TotalPages` header after `int()` parsing
(`none` when the header is missing). -/
structure WpResponse where
  status : Nat
  posts : List WpPost
  totalPages : Option Int
deriving DecidableEq, Repr

/-- The `while True` pagination loop of `fetch_wp_posts`, with the remote
endpoint modelled as a page-indexed response function and an explicit fuel
bound.  `none` = fuel exhausted (the run did not terminate within `fuel`
iterations); `some none` = the function returned `None` (hard failure on a
non-200/400 status); `some (some acc)` = the loop broke out with the
accumulated posts. -/
def fetchLoop (resp : Nat → WpResponse) :
    Nat → Nat → List WpPost → Option (Option (List WpPost))
  | 0, _, _ => none
  | fuel + 1, page, acc =>
    let r := resp page
    if r.status = 400 then some (some acc)
    else if r.status ≠ 200 then some none
    else if r.posts = [] then some (some acc)
    else
      match r.totalPages with
      | none => some (some (acc ++ r.posts))
      | some t =>
        if t ≤ (page : Int) then some (some (acc ++ r.posts))
        else fetchLoop resp fuel (page + 1) (acc ++ r.posts)

/-- Scanner implementing `re.sub(r"<[^>]+>", "", ·)`: `false` mode is normal copying;
`true` mode is inside a candidate tag with the pending characters (in
reverse) buffered, emitted literally if the input ends before a `>`.  A
`<` immediately followed by `>` is not a tag (the pattern needs at least
one character between them), so both characters are literal. -/
def stripTagsGo : Bool → List Char → List Char → List Char
  | false, _, [] => []
  | false, _, '<' :: cs => stripTagsGo true ['<'] cs
  | false, _, c :: cs => c :: stripTagsGo false [] cs
  | true, buf, [] => buf.reverse
  | true, buf, '>' :: cs =>
    if buf = ['<'] then '<' :: '>' :: stripTagsGo false [] cs
    else stripTagsGo false [] cs
  | true, buf, c :: cs => stripTagsGo true (c :: buf) cs

/-- Removal of every non-overlapping leftmost match of `<[^>]+>`. -/
def stripTags (l : List Char) : List Char := stripTagsGo false [] l

/-- The inner `strip_html` of `fetch_wp_posts`: remove tag matches, then Python
`.strip()` of surrounding whitespace. -/
def strip_html (s : String) : String :=
  String.mk (pyStrip (stripTags s.data))

/-- One output row of `fetch_wp_posts` (column names of the DataFrame in
source order: 記事ID, タイトル, スラッグ, URL, ステータス, 公開日,
最終更新日, 文字数). -/
structure Row where
  articleId : Int
  title : String
  slug : String
  url : String
  status : String
  date : String
  modified : String
  charCount : Nat
deriving DecidableEq, Repr

/-- The row built for one post: straight field copies plus
`char_count = len(strip_html(content))`. -/
def makeRow (p : WpPost) : Row :=
  ⟨p.id, p.titleRendered, p.slug, p.link, p.status, p.date, p.modified,
    (strip_html p.contentRendered).length⟩

/-- The function `fetch_wp_posts`: run the pagination loop from page 1 with an empty
accumulator, then build the DataFrame rows.  `some none` models the
`return None` failure path, `none` models fuel exhaustion of the loop. -/
def fetch_wp_posts (resp : Nat → WpResponse) (fuel : Nat) :
    Option (Option (List Row)) :=
  match fetchLoop resp fuel 1 [] with
  | none => none
  | some none => some none
  | some (some ps) => some (some (ps.map makeRow))

/-- The stopping conditions named by the specification: an empty page, a
bad-request status, or the page number reaching the advertised total. -/
def claimStop (r : WpResponse) (page : Nat) : Prop :=
  r.status = 400 ∨ r.posts = [] ∨ ∃ t, r.totalPages = some t ∧ t ≤ (page : Int)

/-- The exact condition under which one loop iteration continues to the
next page: success status, non-empty body, and an advertised total still
ahead of the current page. -/
def continuesAt (resp : Nat → WpResponse) (q : Nat) : Prop :=
  (resp q).status = 200 ∧ (resp q).posts ≠ [] ∧
    ∃ t, (resp q).totalPages = some t ∧ (q : Int) < t

/-- A page satisfying one of the specification's stop conditions is never
stepped past: `n` more fuel after reaching it always suffices. -/
theorem fetchLoop_reach (resp : Nat → WpResponse) :
    ∀ n page acc, claimStop (resp (page + n)) (page + n) →
      ∃ r, fetchLoop resp (n + 1) page acc = some r := by
  intro n
  induction n with
  | zero =>
    intro page acc h
    rw [Nat.add_zero] at h
    simp only [fetchLoop]
    split
    · exact ⟨_, rfl⟩
    · split
      · exact ⟨_, rfl⟩
      · split
        · exact ⟨_, rfl⟩
        · rename_i h400 h200 hne
          split
          · exact ⟨_, rfl⟩
          · rename_i t ht
            split
            · exact ⟨_, rfl⟩
            · rename_i hlt
              rcases h with h | h | ⟨t', ht', hle⟩
              · exact absurd h h400
              · exact absurd h hne
              · rw [ht] at ht'
                cases ht'
                exact absurd hle hlt
  | succ n ih =>
    intro page acc h
    simp only [fetchLoop]
    split
    · exact ⟨_, rfl⟩
    · split
      · exact ⟨_, rfl⟩
      · split
        · exact ⟨_, rfl⟩
        · split
          · exact ⟨_, rfl⟩
          · split
            · exact ⟨_, rfl⟩
            · have hsh : page + 1 + n = page + (n + 1) := by omega
              exact ih (page + 1) _ (by rw [hsh]; exact h)

/-- C3: if some page (at or after the first) satisfies one of the
specification's stop conditions — empty body, status 400, or page number
at the advertised total — then the pagination loop of `fetch_wp_posts`
terminates: some finite fuel makes it produce a result. -/
theorem fetch_pagination_terminates (resp : Nat → WpResponse)
    (h : ∃ p, 1 ≤ p ∧ claimStop (resp p) p) :
    ∃ fuel r, fetchLoop resp fuel 1 [] = some r := by
  obtain ⟨p, hp, hstop⟩ := h
  have hpn : 1 + (p - 1) = p := by omega
  obtain ⟨r, hr⟩ := fetchLoop_reach resp (p - 1) 1 [] (by rw [hpn]; exact hstop)
  exact ⟨p - 1 + 1, r, hr⟩

theorem fetch_pagination_terminates_witness :
    (1 ≤ 1 ∧ claimStop (WpResponse.mk 200 [] (some 3)) 1) ∧
    ∃ fuel r, fetchLoop (fun _ => WpResponse.mk 200 [] (some 3)) fuel 1 [] =
      some r :=
  ⟨⟨le_refl 1, Or.inr (Or.inl rfl)⟩,
    fetch_pagination_terminates (fun _ => WpResponse.mk 200 [] (some 3))
      ⟨1, le_refl 1, Or.inr (Or.inl rfl)⟩⟩

/-- One continuing iteration: with a 200 status, a non-empty body and the
advertised total still ahead, the loop appends the page's posts and moves
to the next page. -/
theorem fetchLoop_step (resp : Nat → WpResponse) (fuel page : Nat)
    (acc : List WpPost) (h : continuesAt resp page) :
    fetchLoop resp (fuel + 1) page acc =
      fetchLoop resp fuel (page + 1) (acc ++ (resp page).posts) := by
  obtain ⟨h200, hne, t, ht, hlt⟩ := h
  simp only [fetchLoop, h200, ht]
  norm_num
  rw [if_neg hne, if_neg (not_le.mpr hlt)]

/-- Running the loop across `n` successive continuing pages accumulates
their bodies in page order. -/
theorem fetchLoop_run (resp : Nat → WpResponse) :
    ∀ n page acc, (∀ q, page ≤ q → q < page + n → continuesAt resp q) →
      fetchLoop resp (n + 1) page acc =
        fetchLoop resp 1 (page + n)
          (acc ++ ((List.range' page n).map (fun q => (resp q).posts)).flatten) := by
  intro n
  induction n with
  | zero => intro page acc _; simp
  | succ n ih =>
    intro page acc h
    have hc : continuesAt resp page := h page le_rfl (by omega)
    rw [fetchLoop_step resp (n + 1) page acc hc]
    rw [ih (page + 1) (acc ++ (resp page).posts)
      (fun q hq1 hq2 => h q (by omega) (by omega))]
    have hrange : List.range' page (n + 1) = page :: List.range' (page + 1) n :=
      List.range'_succ page n 1
    rw [hrange]
    have hsh : page + 1 + n = page + (n + 1) := by omega
    simp [List.append_assoc, hsh]

/-- The response sequence of the C6 counterexample: page 1 is an empty 200
page, every later page answers 500. -/
def cexResp (p : Nat) : WpResponse :=
  if p = 1 then ⟨200, [], some 5⟩ else ⟨500, [], none⟩

/-- C6 counterexample: in `cexResp` the first response whose status is not
200 is page 2 with status 500, yet `fetch_wp_posts` returns a successful
(empty) tabular result, not the failure signal — the loop breaks at the
empty page 1 and never sees the bad status. -/
theorem fetch_first_bad_status_cex :
    (cexResp 1).status = 200 ∧ (cexResp 2).status = 500 ∧
    (cexResp 3).status = 500 ∧
    fetch_wp_posts cexResp 2 = some (some []) ∧
    fetch_wp_posts cexResp 2 ≠ some none := by
  decide

/-- C6 (amended: the bad-status page must actually be reached, i.e. every
earlier page continues the loop): if pages `1..p-1` all have status 200,
non-empty bodies and advertised totals beyond them, then a 400 at page `p`
makes `fetch_wp_posts` return the rows of the posts accumulated from pages
`1..p-1`, while any other non-200 status at page `p` makes it return the
failure signal `None`. -/
theorem fetch_first_bad_status (resp : Nat → WpResponse) (p : Nat)
    (hp : 1 ≤ p) (hbefore : ∀ q, 1 ≤ q → q < p → continuesAt resp q) :
    ((resp p).status = 400 →
      fetch_wp_posts resp (p - 1 + 1) = some (some
        ((((List.range' 1 (p - 1)).map (fun q => (resp q).posts)).flatten).map
          makeRow))) ∧
    ((resp p).status ≠ 200 → (resp p).status ≠ 400 →
      fetch_wp_posts resp (p - 1 + 1) = some none) := by
  have hrun := fetchLoop_run resp (p - 1) 1 []
    (fun q hq1 hq2 => hbefore q hq1 (by omega))
  have hp1 : 1 + (p - 1) = p := by omega
  rw [hp1] at hrun
  rw [List.nil_append] at hrun
  constructor
  · intro h400
    unfold fetch_wp_posts
    rw [hrun]
    simp only [fetchLoop, h400, if_pos]
  · intro h200 h400
    unfold fetch_wp_posts
    rw [hrun]
    simp only [fetchLoop, if_neg h400, if_pos, ne_eq, h200, not_false_iff]

/-- The single post served by page 1 of the C6 witness runs. -/
def wPost : WpPost := ⟨9, "W", "w", "http://w", "publish", "d", "m", "hi"⟩

/-- Responses whose first non-200 page is a 400 at page 2; page 1
continues the loop (status 200, one post, advertised total 3). -/
def wResp400 (p : Nat) : WpResponse :=
  if p = 1 then ⟨200, [wPost], some 3⟩ else ⟨400, [], none⟩

/-- Responses whose first non-200 page is a 500 at page 2; page 1
continues the loop (status 200, one post, advertised total 3). -/
def wResp500 (p : Nat) : WpResponse :=
  if p = 1 then ⟨200, [wPost], some 3⟩ else ⟨500, [], none⟩

theorem fetch_first_bad_status_witness :
    fetch_wp_posts wResp400 (2 - 1 + 1) = some (some
      ((((List.range' 1 (2 - 1)).map (fun q => (wResp400 q).posts)).flatten).map
        makeRow)) ∧
    fetch_wp_posts wResp500 (2 - 1 + 1) = some none :=
  ⟨(fetch_first_bad_status wResp400 2 (by decide) (fun q hq1 hq2 => by
      have hq : q = 1 := by omega
      subst hq
      unfold continuesAt
      exact ⟨by decide, by decide, 3, by decide, by decide⟩)).1 (by decide),
   (fetch_first_bad_status wResp500 2 (by decide) (fun q hq1 hq2 => by
      have hq : q = 1 := by omega
      subst hq
      unfold continuesAt
      exact ⟨by decide, by decide, 3, by decide, by decide⟩)).2
     (by decide) (by decide)⟩

/-- The C8 claim's literal reading of the character count: the length of
the content with every tag-pattern match removed and nothing else done
(no whitespace trim). -/
def tagStrippedLen (s : String) : Nat := (String.mk (stripTags s.data)).length

/-- The post of the C8 counterexample: its tag-stripped content is
`" abc "`, which `.strip()` shortens. -/
def cexPost : WpPost :=
  ⟨7, "T", "t", "http://u/t", "publish", "2024-01-01", "2024-01-02",
    "<p> abc </p>"⟩

/-- The single-page response collection returning `cexPost`. -/
def cexResp8 (_ : Nat) : WpResponse := ⟨200, [cexPost], some 1⟩

/-- C8 counterexample: `fetch_wp_posts` returns the row for `cexPost` with
character count 3 (tag-stripped and then whitespace-trimmed), while the
length of the merely tag-stripped content `" abc "` is 5. -/
theorem fetch_char_count_cex :
    fetch_wp_posts cexResp8 1 = some (some [makeRow cexPost]) ∧
    (makeRow cexPost).charCount = 3 ∧
    tagStrippedLen cexPost.contentRendered = 5 ∧
    (makeRow cexPost).charCount ≠ tagStrippedLen cexPost.contentRendered := by
  decide

/-- C8 (amended: the count is of the tag-stripped and whitespace-trimmed
content): every row of a successful fetch has its character count equal to
the length of `strip_html` of the source post's rendered content — tag
matches removed, surrounding whitespace stripped, entities and script text
kept verbatim. -/
theorem fetch_char_count (resp : Nat → WpResponse) (fuel : Nat)
    (rows : List Row) (h : fetch_wp_posts resp fuel = some (some rows)) :
    ∀ r ∈ rows, ∃ p : WpPost, r = makeRow p ∧
      r.charCount = (strip_html p.contentRendered).length := by
  intro r hr
  unfold fetch_wp_posts at h
  cases hl : fetchLoop resp fuel 1 [] with
  | none => rw [hl] at h; exact Option.noConfusion h
  | some o =>
    cases o with
    | none => rw [hl] at h; simp at h
    | some ps =>
      rw [hl] at h
      simp only [Option.some.injEq] at h
      subst h
      obtain ⟨p, hp, rfl⟩ := List.mem_map.mp hr
      exact ⟨p, rfl, rfl⟩

theorem fetch_char_count_witness :
    ∃ p : WpPost, makeRow cexPost = makeRow p ∧
      (makeRow cexPost).charCount = (strip_html p.contentRendered).length :=
  fetch_char_count cexResp8 1 [makeRow cexPost] (by decide) (makeRow cexPost)
    (by simp)

/-! The identity gate (`verify_firebase_token`). -/

/-- A JWT as seen by the decoding call, abstracted from its wire form:
whether the three-segment base64/JSON structure parses (well-formed), the
claim set it carries, and the two semantic facts that
`jwt.decode(..., options=\x7b"verify_signature": False\x7d)` ignores —
signature validity against the issuer key and expiry.  Per the library's
documented behaviour, disabling signature verification also disables the
expiry and issuer checks, so decoding depends only on well-formedness. -/
structure JwtToken where
  wellFormed : Bool
  claims : List (String × String)
  sigValid : Bool
  expired : Bool
deriving DecidableEq, Repr

/-- The `jwt.decode` call of `verify_firebase_token`: yields the claims of
any structurally well-formed token (no signature, expiry or issuer check);
raises (`none`) on a malformed token. -/
def jwtDecodeNoVerify (t : JwtToken) : Option (List (String × String)) :=
  if t.wellFormed then some t.claims else none

/-- The function `verify_firebase_token(id_token)`: `None` for an absent (falsy) token,
otherwise the decoded claims, with any decoding exception caught and
turned into `None`. -/
def verify_firebase_token : Option JwtToken → Option (List (String × String))
  | none => none
  | some t => jwtDecodeNoVerify t

/-- C5: the identity gate returns no identity for an absent token and for
a token that fails to decode, returns the full claim set of every
well-formed token, and in particular accepts some well-formed token whose
signature is invalid and whose expiry is past. -/
theorem verify_token_contract (t : JwtToken) :
    verify_firebase_token none = none ∧
    (t.wellFormed = false → verify_firebase_token (some t) = none) ∧
    (t.wellFormed = true → verify_firebase_token (some t) = some t.claims) ∧
    (∃ u : JwtToken, u.wellFormed = true ∧ u.sigValid = false ∧
      u.expired = true ∧ verify_firebase_token (some u) = some u.claims) := by
  refine ⟨rfl, ?_, ?_, ?_⟩
  · intro h
    simp [verify_firebase_token, jwtDecodeNoVerify, h]
  · intro h
    simp [verify_firebase_token, jwtDecodeNoVerify, h]
  · exact ⟨⟨true, [("sub", "alice")], false, true⟩, rfl, rfl, rfl, rfl⟩

theorem verify_token_contract_witness :
    verify_firebase_token none = none ∧
    ((JwtToken.mk false [] true false).wellFormed = false →
      verify_firebase_token (some (JwtToken.mk false [] true false)) = none) ∧
    ((JwtToken.mk false [] true false).wellFormed = true →
      verify_firebase_token (some (JwtToken.mk false [] true false)) =
        some (JwtToken.mk false [] true false).claims) ∧
    (∃ u : JwtToken, u.wellFormed = true ∧ u.sigValid = false ∧
      u.expired = true ∧ verify_firebase_token (some u) = some u.claims) :=
  verify_token_contract (JwtToken.mk false [] true false)

/-! The spreadsheet sync stage (`write_to_sheets`). -/

/-- A spreadsheet cell value before `astype(str)`. -/
inductive Cell where
  | intVal (n : Int)
  | natVal (n : Nat)
  | strVal (s : String)
deriving DecidableEq, Repr

/-- Python `str()` of one cell (`df.astype(str)`). -/
def pyStr : Cell → String
  | Cell.intVal n => toString n
  | Cell.natVal n => toString n
  | Cell.strVal s => s

/-- A DataFrame as written to the sheet: column names plus cell rows. -/
structure Df where
  columns : List String
  cells : List (List Cell)
deriving DecidableEq, Repr

/-- The grid sent by `ws.update("A1", [df.columns.tolist()] +
df.astype(str).values.tolist())`: header row, then stringified data rows. -/
def dfGrid (df : Df) : List (List String) :=
  df.columns :: df.cells.map (fun r => r.map pyStr)

/-- Success flags for the three external spreadsheet calls, in program
order: credential/open (everything before the worksheet lookup), `clear`,
and `update`.  A failing call raises without changing the stored state
(for `clear` this is the no-partial-effect worst case for the claim). -/
structure SheetsEnv where
  credsOk : Bool
  clearOk : Bool
  updateOk : Bool
deriving DecidableEq, Repr

/-- The function `write_to_sheets(df, sheet_id, worksheet_name)` as a transition on the
target worksheet's stored grid (`none` = the named worksheet does not
exist; `sh.worksheet` then raises and `add_worksheet` creates an empty
one).  Returns the `True`/`False` result together with the new state; any
raised step is caught and surfaced as `False`. -/
def write_to_sheets (df : Df) (env : SheetsEnv)
    (ws : Option (List (List String))) : Bool × Option (List (List String)) :=
  if env.credsOk = false then (false, ws)
  else
    let grid := match ws with
      | some g => g
      | none => []
    if env.clearOk = false then (false, some grid)
    else if env.updateOk = false then (false, some [])
    else (true, some (dfGrid df))

/-- The fixed column names of the fetched DataFrame, in source order. -/
def wpColumns : List String :=
  ["記事ID", "タイトル", "スラッグ", "URL", "ステータス", "公開日",
    "最終更新日", "文字数"]

/-- One fetched row as a cell row (記事ID is an integer, 文字数 a count,
the rest strings). -/
def rowCells (r : Row) : List Cell :=
  [Cell.intVal r.articleId, Cell.strVal r.title, Cell.strVal r.slug,
    Cell.strVal r.url, Cell.strVal r.status, Cell.strVal r.date,
    Cell.strVal r.modified, Cell.natVal r.charCount]

/-- The fetched collection as a DataFrame table. -/
def rowsDf (rows : List Row) : Df := ⟨wpColumns, rows.map rowCells⟩

/-- C9: `write_to_sheets` is not atomic — a concrete run in which the
clear succeeds and the bulk update fails returns `False` (the failure is
caught and surfaced, not raised) and leaves the worksheet empty, its prior
contents lost. -/
theorem sheets_clear_not_rolled_back :
    write_to_sheets (rowsDf [])
        (SheetsEnv.mk true true false)
        (some [["old1", "old2"], ["x", "y"]]) =
      (false, some []) ∧
    (some ([] : List (List String)) ≠ some [["old1", "old2"], ["x", "y"]]) := by
  decide

/-- C10: when every spreadsheet call succeeds, writing a fetched
collection stores header plus stringified rows, so reading the worksheet
back (the stored grid; the repository itself has no read path, the service
returns what was stored) yields exactly the original column names in order
and the original cell values under `str()`. -/
theorem sheets_roundtrip (rows : List Row) (env : SheetsEnv)
    (ws : Option (List (List String))) (hc : env.credsOk = true)
    (hcl : env.clearOk = true) (hu : env.updateOk = true) :
    write_to_sheets (rowsDf rows) env ws =
      (true, some ((rowsDf rows).columns ::
        (rowsDf rows).cells.map (fun cr => cr.map pyStr))) := by
  simp [write_to_sheets, hc, hcl, hu, dfGrid]

theorem sheets_roundtrip_witness :
    write_to_sheets
        (rowsDf [Row.mk 7 "T" "t" "http://u/t" "publish" "d" "m" 3])
        (SheetsEnv.mk true true true) none =
      (true, some ((rowsDf [Row.mk 7 "T" "t" "http://u/t" "publish" "d" "m" 3]).columns ::
        (rowsDf [Row.mk 7 "T" "t" "http://u/t" "publish" "d" "m" 3]).cells.map
          (fun cr => cr.map pyStr))) :=
  sheets_roundtrip [Row.mk 7 "T" "t" "http://u/t" "publish" "d" "m" 3]
    (SheetsEnv.mk true true true) none rfl rfl rfl

end HaruBlogTool
